import Mathlib

/-!
Shallow embedding of the voucher-management backend in src/server.js:
the data model (mongoose voucher schema), the resource provisioner and
voucher numbering service (getUserResources), and the submit, edit,
delete and list routes.  External collaborators (Google Sheets, Google
Drive, MongoDB) are modelled as explicit state: the record store is a
list of vouchers in insertion order (findOne = first match, deleteOne
and updateOne touch the first match), each spreadsheet is a list of data
rows (range A2:O, the header row excluded), and Drive ids are drawn from
a fresh-id counter.  Externally produced identifiers and links are
modelled as values derived from that counter.
-/

namespace FormServer

/-- Request body of the submit and edit routes (multipart form fields).
The client may or may not send a voucherNo field; JS truthiness of that
field (line 495 of server.js) is modelled with Option Nat, where some 0
is falsy like the number 0 in JS. -/
structure VoucherData where
  filter : String
  voucherNo : Option Nat
  date : String
  payTo : String
  accountHead : String
  account : String
  transactionType : String
  amount : String
  amountRs : String
  checkedBy : String
  approvedBy : String
  receiverSignature : String
deriving Repr, DecidableEq

/-- The mongoose voucher schema (lines 74-96 of server.js).  The opaque
MongoDB _id is modelled as a Nat drawn from a counter; spreadsheetId,
folderId and pdfFileId are opaque external ids, modelled as Nat, with
Option for the possibly-absent pdfFileId (its JS truthiness check). -/
structure Voucher where
  id : Nat
  email : String
  company : String
  voucherNo : Nat
  date : String
  payTo : String
  accountHead : String
  account : String
  transactionType : String
  amount : String
  amountRs : String
  checkedBy : String
  approvedBy : String
  receiverSignature : String
  pdfLink : String
  spreadsheetId : Nat
  folderId : Nat
  pdfFileId : Option Nat
deriving Repr, DecidableEq

/-- The state of the three external stores: the MongoDB voucher
collection in insertion order, the spreadsheets keyed by spreadsheet id
(each created with a single sheet: its title, set to the company name at
creation, and its list of data rows below the header), and the fresh-id
counters for externally created resources and MongoDB record ids. -/
structure ServerState where
  vouchers : List Voucher
  sheets : List (Nat × String × List (List String))
  nextId : Nat
  nextRecordId : Nat
deriving Repr, DecidableEq

/-- Observable external side effects of one request, in order. -/
inductive Effect where
  | createSheet (sid : Nat) (title : String)
  | createFolder (fid : Nat) (title : String)
  | renderPdf (name : String) (voucherNo : Nat)
  | uploadPdf (fileId : Nat) (folderId : Nat) (name : String)
  | deletePdf (fileId : Nat)
  | appendRow (sid : Nat) (sheetTitle : String) (row : List String)
  | updateRow (sid : Nat) (sheetTitle : String) (idx : Nat) (row : List String)
  | clearRow (sid : Nat) (sheetTitle : String) (idx : Nat)
deriving Repr, DecidableEq

/-- Error outcomes of the routes (the HTTP error responses).
rangeError is the spreadsheet service rejecting a range whose sheet
title does not exist in the addressed spreadsheet (surfaced by the
routes as a 500 like any other upstream failure). -/
inductive ApiError where
  | invalidFilter
  | voucherNotFound
  | rowNotFound
  | rangeError
  | voucherNumberRequired
  | validationFailed
deriving Repr, DecidableEq

/-- The fixed filter registry (lines 224, 265, 489 of server.js). -/
def validFilters : List String := ["Contentstack", "Surfboard", "RawEngineering"]

/-- The transactionType enum of the mongoose schema (line 85). -/
def transactionTypes : List String := ["UPI", "Cash", "Account"]

/-- The fixed 13-column header row written at provisioning
(lines 47-61 of server.js). -/
def headerValues : List String :=
  ["Voucher No.", "Date", "Filter", "Pay to", "Account Head", "Towards",
   "Transaction Type", "The Sum", "Amount Rs.", "Checked By", "Approved By",
   "Receiver Signature", "PDF Link"]

/-- The query filter of Voucher.findOne on (email, company). -/
def matchesPair (email company : String) (v : Voucher) : Bool :=
  v.email == email && v.company == company

/-- Maximum of a list of numbers, none on the empty list. -/
def maxFold : List Nat → Option Nat
  | [] => none
  | n :: ns =>
      match maxFold ns with
      | none => some n
      | some m => some (if n ≤ m then m else n)

/-- The voucherNo of Voucher.findOne({email, company}).sort({voucherNo: -1})
(lines 187-189): the highest voucher number among the records of the
(email, company) pair, none when the pair has no record. -/
def highestVoucherNo (email company : String) (vs : List Voucher) : Option Nat :=
  maxFold ((vs.filter (matchesPair email company)).map Voucher.voucherNo)

/-- Rows of the spreadsheet with the given id, regardless of its sheet
title; a missing spreadsheet reads as no rows (the code defaults
sheetData.data.values to []). -/
def getSheetRows (sid : Nat) (s : ServerState) : List (List String) :=
  match s.sheets.find? (fun p => p.fst == sid) with
  | some p => p.snd.snd
  | none => []

/-- sheets.spreadsheets.values.get on range title!A2:O of the given
spreadsheet: the addressed sheet title must exist in that spreadsheet,
or the service rejects the range (none).  An empty sheet reads as some
[] (the code defaults sheetData.data.values to []). -/
def readSheetRange (sid : Nat) (title : String) (s : ServerState) :
    Option (List (List String)) :=
  match s.sheets.find? (fun p => p.fst == sid) with
  | some p => if p.snd.fst == title then some p.snd.snd else none
  | none => none

/-- Replace the rows of the spreadsheet with the given id, keeping its
sheet title. -/
def setSheetRows (sid : Nat) (rows : List (List String)) (s : ServerState) : ServerState :=
  if (s.sheets.find? (fun p => p.fst == sid)).isSome then
    { s with sheets :=
        s.sheets.map (fun p => if p.fst == sid then (sid, p.snd.fst, rows) else p) }
  else
    { s with sheets := s.sheets ++ [(sid, "", rows)] }

/-- rows.findIndex(row => row[0] == voucherNo) (lines 388, 464): linear
scan for the data row whose first cell equals the voucher number.  Cells
read back from the sheet are strings; the JS loose equality with the
number is string-vs-number coercion, modelled by comparing against
toString.  A cleared (empty) row has no first cell and never matches. -/
def findRowIdx (rows : List (List String)) (voucherNo : Nat) : Option Nat :=
  rows.findIdx? (fun row => row.head? == some (toString voucherNo))

/-- The 13-cell row written to the sheet by both the submit append
(lines 582-598) and the edit row overwrite (lines 365-381); the two
occurrences in the source are textually identical. -/
def sheetRowValues (voucherNo : Nat) (d : VoucherData) (pdfLink : String) : List String :=
  [toString voucherNo, d.date, d.filter, d.payTo, d.accountHead, d.account,
   d.transactionType, d.amount, d.amountRs, d.checkedBy, d.approvedBy,
   d.receiverSignature, pdfLink]

/-- The webViewLink returned by the Drive upload, modelled as a value
derived from the fresh file id. -/
def driveLink (fileId : Nat) : String :=
  "https://drive.google.com/file/d/" ++ toString fileId

/-- The sheetURL string built by the routes (lines 278, 497). -/
def sheetURLOf (sid : Nat) : String :=
  "https://docs.google.com/spreadsheets/d/" ++ toString sid ++ "/edit"

/-- The name of the generated PDF file (lines 280, 503). -/
def pdfName (filter : String) (voucherNo : Nat) : String :=
  filter ++ "_" ++ toString voucherNo ++ ".pdf"

/-- MongoDB deleteOne: remove the first matching record. -/
def deleteFirst (p : Voucher → Bool) : List Voucher → List Voucher
  | [] => []
  | v :: vs => if p v then vs else v :: deleteFirst p vs

/-- MongoDB updateOne: update the first matching record. -/
def updateFirst (p : Voucher → Bool) (f : Voucher → Voucher) : List Voucher → List Voucher
  | [] => []
  | v :: vs => if p v then f v :: vs else v :: updateFirst p f vs

/-- Mongoose document validation run by voucher.save(): required String
fields reject empty strings and transactionType must be in the enum
(lines 74-96).  email and company are always set by the route; the
remaining fields have no validators. -/
def validVoucher (v : Voucher) : Bool :=
  v.email != "" && v.company != "" && transactionTypes.contains v.transactionType

/-- Result of getUserResources (lines 175-194). -/
structure Resources where
  spreadsheetId : Nat
  folderId : Nat
  voucherNumber : Nat
deriving Repr, DecidableEq

/-- The voucher number computed at lines 187-190: highest existing + 1,
or 1 when the (email, company) pair has no voucher. -/
def nextVoucherNumber (email companyName : String) (vs : List Voucher) : Nat :=
  match highestVoucherNo email companyName vs with
  | some m => m + 1
  | none => 1

/-- getUserResources (lines 175-194): reuse the spreadsheet and folder
ids stored on an existing voucher of the (email, company) pair, or
create a new spreadsheet (with a sheet named after the company and the
fixed header row) and a new Drive folder; then compute the next voucher
number as highest existing + 1, or 1 when the pair has no voucher. -/
def getUserResources (email companyName : String) (s : ServerState) :
    Resources × ServerState × List Effect :=
  let (sid, fid, s1, effs) :=
    match s.vouchers.find? (matchesPair email companyName) with
    | some ex => (ex.spreadsheetId, ex.folderId, s, ([] : List Effect))
    | none =>
        let sid := s.nextId
        let fid := s.nextId + 1
        (sid, fid,
          { s with nextId := s.nextId + 2,
                   sheets := s.sheets ++ [(sid, companyName, [])] },
          [Effect.createSheet sid (companyName ++ " Vouchers"),
           Effect.createFolder fid (companyName ++ " Vouchers")])
  (⟨sid, fid, nextVoucherNumber email companyName s.vouchers⟩, s1, effs)

/-- voucherData.voucherNo || voucherNumber (line 495): a truthy client
voucherNo overrides the allocated number. -/
def chosenVoucherNo (client : Option Nat) (allocated : Nat) : Nat :=
  match client with
  | some k => if k == 0 then allocated else k
  | none => allocated

/-- Success payload of the submit and edit routes. -/
structure RouteOk where
  sheetURL : String
  pdfFileId : Nat
deriving Repr, DecidableEq

/-- The record constructed and saved by the submit route
(lines 609-628). -/
def mkSubmittedVoucher (recordId : Nat) (email : String) (d : VoucherData)
    (voucherNo : Nat) (link : String) (sid fid fileId : Nat) : Voucher :=
  { id := recordId, email := email, company := d.filter, voucherNo := voucherNo,
    date := d.date, payTo := d.payTo, accountHead := d.accountHead,
    account := d.account, transactionType := d.transactionType,
    amount := d.amount, amountRs := d.amountRs, checkedBy := d.checkedBy,
    approvedBy := d.approvedBy, receiverSignature := d.receiverSignature,
    pdfLink := link, spreadsheetId := sid, folderId := fid,
    pdfFileId := some fileId }

/-- The body of the submit route from line 495 on, after authentication
and provisioning produced the spreadsheet id, folder id and allocated
number (r), the state after provisioning (s1) and the provisioning
effects (effs1): take a truthy client voucherNo over the allocated one,
render the PDF, upload it to the folder, append the 13-cell row to the
sheet, and save the record.  The mongoose document validation runs last,
after the external writes. -/
def submitCore (email : String) (d : VoucherData) (r : Resources)
    (s1 : ServerState) (effs1 : List Effect) :
    Except ApiError RouteOk × ServerState × List Effect :=
  let voucherNo := chosenVoucherNo d.voucherNo r.voucherNumber
  if voucherNo == 0 then (.error .voucherNumberRequired, s1, effs1)
  else
    let name := pdfName d.filter voucherNo
    let fileId := s1.nextId
    let s2 := { s1 with nextId := s1.nextId + 1 }
    let link := driveLink fileId
    let row := sheetRowValues voucherNo d link
    let s3 := setSheetRows r.spreadsheetId (getSheetRows r.spreadsheetId s2 ++ [row]) s2
    let effs := effs1 ++
      [Effect.renderPdf name voucherNo,
       Effect.uploadPdf fileId r.folderId name,
       Effect.appendRow r.spreadsheetId d.filter row]
    let v := mkSubmittedVoucher s3.nextRecordId email d voucherNo link
      r.spreadsheetId r.folderId fileId
    if validVoucher v then
      (.ok ⟨sheetURLOf r.spreadsheetId, fileId⟩,
       { s3 with vouchers := s3.vouchers ++ [v],
                 nextRecordId := s3.nextRecordId + 1 },
       effs)
    else (.error .validationFailed, s3, effs)

/-- The submit route (lines 484-652): validate the filter, provision
resources and allocate a number through getUserResources, then run the
rest of the submit sequence (submitCore). -/
def submit (email : String) (d : VoucherData) (s : ServerState) :
    Except ApiError RouteOk × ServerState × List Effect :=
  if !(validFilters.contains d.filter) then (.error .invalidFilter, s, [])
  else
    let gur := getUserResources email d.filter s
    submitCore email d gur.1 gur.2.1 gur.2.2

/-- The update document of Voucher.updateOne in the edit route
(lines 403-419): only the content fields plus the new pdfLink and
pdfFileId are written. -/
def applyEditUpdate (d : VoucherData) (link : String) (fileId : Nat) (v : Voucher) : Voucher :=
  { v with date := d.date, payTo := d.payTo, accountHead := d.accountHead,
           account := d.account, transactionType := d.transactionType,
           amount := d.amount, amountRs := d.amountRs, checkedBy := d.checkedBy,
           approvedBy := d.approvedBy, receiverSignature := d.receiverSignature,
           pdfLink := link, pdfFileId := some fileId }

/-- The query filter of the edit route on (_id, email). -/
def matchesIdOwner (voucherId : Nat) (email : String) (v : Voucher) : Bool :=
  v.id == voucherId && v.email == email

/-- The edit route (lines 259-438): validate the filter, locate the
record by (_id, owner email) or fail with voucher-not-found, render the
PDF with the voucher number of the existing record, delete the old PDF
if present, upload the new one, read the sheet range whose title is the
filter of the request on the stored spreadsheet — the spreadsheet
service rejects the range when that spreadsheet has no sheet of that
title, which aborts the edit before any record-store update — then
locate the row whose first cell equals the voucher number or fail with
row-not-found (leaving the record store untouched), overwrite that row,
and update the record in place. -/
def editVoucher (email : String) (voucherId : Nat) (d : VoucherData) (s : ServerState) :
    Except ApiError RouteOk × ServerState × List Effect :=
  if !(validFilters.contains d.filter) then (.error .invalidFilter, s, [])
  else
    match s.vouchers.find? (matchesIdOwner voucherId email) with
    | none => (.error .voucherNotFound, s, [])
    | some ex =>
        let voucherNo := ex.voucherNo
        let name := pdfName d.filter voucherNo
        let delEffs :=
          match ex.pdfFileId with
          | some oldId => [Effect.deletePdf oldId]
          | none => []
        let fileId := s.nextId
        let s1 := { s with nextId := s.nextId + 1 }
        let link := driveLink fileId
        let preEffs := [Effect.renderPdf name voucherNo] ++ delEffs ++
          [Effect.uploadPdf fileId ex.folderId name]
        match readSheetRange ex.spreadsheetId d.filter s1 with
        | none => (.error .rangeError, s1, preEffs)
        | some rows =>
            match findRowIdx rows voucherNo with
            | none => (.error .rowNotFound, s1, preEffs)
            | some i =>
                let row := sheetRowValues voucherNo d link
                let s2 := setSheetRows ex.spreadsheetId (rows.set i row) s1
                let newVouchers :=
                  updateFirst (matchesIdOwner voucherId email)
                    (applyEditUpdate d link fileId) s2.vouchers
                let s3 := { s2 with vouchers := newVouchers }
                (.ok ⟨sheetURLOf ex.spreadsheetId, fileId⟩, s3,
                 preEffs ++ [Effect.updateRow ex.spreadsheetId d.filter i row])

/-- The query filter of the delete route on (voucherNo, email): no
company constraint (line 444). -/
def matchesNoOwner (voucherNo : Nat) (email : String) (v : Voucher) : Bool :=
  v.voucherNo == voucherNo && v.email == email

/-- The delete route (lines 440-482): locate the record by
(voucherNo, owner email) or fail with voucher-not-found, delete its PDF
if present, locate the sheet row whose first cell equals the number and
clear it (an empty row stays in place) or skip silently when missing,
then remove the record.  The sheet title used for the range is the
company stored on the located record. -/
def deleteVoucher (email : String) (voucherNo : Nat) (s : ServerState) :
    Except ApiError Unit × ServerState × List Effect :=
  match s.vouchers.find? (matchesNoOwner voucherNo email) with
  | none => (.error .voucherNotFound, s, [])
  | some ex =>
      let delEffs :=
        match ex.pdfFileId with
        | some fid => [Effect.deletePdf fid]
        | none => []
      let rows := getSheetRows ex.spreadsheetId s
      let (s1, clearEffs) :=
        match findRowIdx rows voucherNo with
        | some i =>
            (setSheetRows ex.spreadsheetId (rows.set i []) s,
             [Effect.clearRow ex.spreadsheetId ex.company i])
        | none => (s, ([] : List Effect))
      let newVouchers := deleteFirst (matchesNoOwner voucherNo email) s1.vouchers
      let s2 := { s1 with vouchers := newVouchers }
      (.ok (), s2, delEffs ++ clearEffs)

/-- The list route (lines 238-257): filter by owner email and the
optional company and date query fields, then sort by amount ascending,
amount descending, or voucher number ascending (default).  MongoDB
compares the amount strings lexicographically. -/
def listVouchers (email : String) (company date sort : Option String)
    (s : ServerState) : List Voucher :=
  let q := fun v : Voucher =>
    v.email == email
    && (match company with | some c => v.company == c | none => true)
    && (match date with | some dt => v.date == dt | none => true)
  let found := s.vouchers.filter q
  if sort == some "lowToHigh" then
    List.mergeSort found (fun a b => decide (a.amount ≤ b.amount))
  else if sort == some "highToLow" then
    List.mergeSort found (fun a b => decide (b.amount ≤ a.amount))
  else
    List.mergeSort found (fun a b => decide (a.voucherNo ≤ b.voucherNo))

/-! ## Helper lemmas -/

theorem maxFold_eq_none {l : List Nat} (h : maxFold l = none) : l = [] := by
  cases l with
  | nil => rfl
  | cons n ns =>
      simp only [maxFold] at h
      cases hm : maxFold ns with
      | none => rw [hm] at h; exact absurd h (by simp)
      | some m => rw [hm] at h; exact absurd h (by simp)

theorem maxFold_mem {l : List Nat} {m : Nat} (h : maxFold l = some m) : m ∈ l := by
  induction l generalizing m with
  | nil => simp [maxFold] at h
  | cons n ns ih =>
      simp only [maxFold] at h
      cases hm : maxFold ns with
      | none =>
          rw [hm] at h
          simp only [Option.some.injEq] at h
          simp [← h]
      | some k =>
          rw [hm] at h
          simp only [Option.some.injEq] at h
          subst h
          by_cases hle : n ≤ k
          · simp only [if_pos hle]
            exact List.mem_cons_of_mem _ (ih hm)
          · simp only [if_neg hle]
            exact List.mem_cons_self _ _

theorem maxFold_le {l : List Nat} {m : Nat} (h : maxFold l = some m) :
    ∀ x ∈ l, x ≤ m := by
  induction l generalizing m with
  | nil => simp [maxFold] at h
  | cons n ns ih =>
      intro x hx
      simp only [maxFold] at h
      cases hm : maxFold ns with
      | none =>
          rw [hm] at h
          simp only [Option.some.injEq] at h
          subst h
          have hns := maxFold_eq_none hm
          subst hns
          simp only [List.mem_cons, List.not_mem_nil, or_false] at hx
          subst hx
          exact Nat.le_refl x
      | some k =>
          rw [hm] at h
          simp only [Option.some.injEq] at h
          subst h
          rcases List.mem_cons.mp hx with hx | hx
          · subst hx
            split <;> omega
          · have hxk := ih hm x hx
            split <;> omega

theorem maxFold_isSome {l : List Nat} (h : l ≠ []) : ∃ m, maxFold l = some m := by
  cases hm : maxFold l with
  | none => exact absurd (maxFold_eq_none hm) h
  | some m => exact ⟨m, rfl⟩

theorem getUserResources_voucherNumber (email c : String) (s : ServerState) :
    (getUserResources email c s).1.voucherNumber = nextVoucherNumber email c s.vouchers := by
  unfold getUserResources
  cases hfind : s.vouchers.find? (matchesPair email c) <;> simp [hfind]

theorem getUserResources_vouchers (email c : String) (s : ServerState) :
    (getUserResources email c s).2.1.vouchers = s.vouchers := by
  unfold getUserResources
  cases hfind : s.vouchers.find? (matchesPair email c) <;> simp [hfind]

/-! ## C1 -/

/-- C1: for every (owner, company) pair, the voucher numbering operation
getUserResources returns the highest existing sequence number plus one
when at least one voucher exists for that pair, and 1 when none
exists. -/
theorem getUserResources_voucherNumber_spec (email c : String) (s : ServerState) :
    ((∀ v ∈ s.vouchers, matchesPair email c v = false) →
        (getUserResources email c s).1.voucherNumber = 1)
    ∧ ((∃ v ∈ s.vouchers, matchesPair email c v = true) →
        ∃ m, (∃ w ∈ s.vouchers, matchesPair email c w = true ∧ w.voucherNo = m)
          ∧ (∀ w ∈ s.vouchers, matchesPair email c w = true → w.voucherNo ≤ m)
          ∧ (getUserResources email c s).1.voucherNumber = m + 1) := by
  rw [getUserResources_voucherNumber]
  constructor
  · intro hnone
    have hfilter : s.vouchers.filter (matchesPair email c) = [] := by
      apply List.filter_eq_nil_iff.mpr
      intro v hv
      simp [hnone v hv]
    simp [nextVoucherNumber, highestVoucherNo, hfilter, maxFold]
  · rintro ⟨v, hv, hmv⟩
    have hmem : v.voucherNo ∈ (s.vouchers.filter (matchesPair email c)).map Voucher.voucherNo :=
      List.mem_map.mpr ⟨v, List.mem_filter.mpr ⟨hv, hmv⟩, rfl⟩
    have hne : (s.vouchers.filter (matchesPair email c)).map Voucher.voucherNo ≠ [] :=
      List.ne_nil_of_mem hmem
    obtain ⟨m, hm⟩ := maxFold_isSome hne
    refine ⟨m, ?_, ?_, ?_⟩
    · have := maxFold_mem hm
      obtain ⟨w, hw, hweq⟩ := List.mem_map.mp this
      exact ⟨w, (List.mem_filter.mp hw).1, (List.mem_filter.mp hw).2, hweq⟩
    · intro w hw hmw
      exact maxFold_le hm w.voucherNo
        (List.mem_map.mpr ⟨w, List.mem_filter.mpr ⟨hw, hmw⟩, rfl⟩)
    · unfold nextVoucherNumber highestVoucherNo
      rw [hm]

/-! ## Submit success lemmas -/

theorem validFilter_ne_empty {f : String} (hf : validFilters.contains f = true) :
    f ≠ "" := by
  simp [validFilters] at hf
  rcases hf with h | h | h <;> subst h <;> decide

theorem nextVoucherNumber_pos (email c : String) (vs : List Voucher) :
    0 < nextVoucherNumber email c vs := by
  unfold nextVoucherNumber
  cases highestVoucherNo email c vs <;> simp

theorem chosenVoucherNo_pos (client : Option Nat) (alloc : Nat) (ha : 0 < alloc) :
    0 < chosenVoucherNo client alloc := by
  unfold chosenVoucherNo
  cases client with
  | none => exact ha
  | some k =>
      by_cases hk : k = 0
      · subst hk
        simpa using ha
      · simp [hk]
        exact Nat.pos_of_ne_zero hk

theorem setSheetRows_vouchers (sid : Nat) (rows : List (List String)) (s : ServerState) :
    (setSheetRows sid rows s).vouchers = s.vouchers := by
  unfold setSheetRows
  split <;> rfl

theorem setSheetRows_nextId (sid : Nat) (rows : List (List String)) (s : ServerState) :
    (setSheetRows sid rows s).nextId = s.nextId := by
  unfold setSheetRows
  split <;> rfl

theorem setSheetRows_nextRecordId (sid : Nat) (rows : List (List String)) (s : ServerState) :
    (setSheetRows sid rows s).nextRecordId = s.nextRecordId := by
  unfold setSheetRows
  split <;> rfl

theorem getUserResources_of_found {email c : String} {s : ServerState} {ex : Voucher}
    (hfind : s.vouchers.find? (matchesPair email c) = some ex) :
    getUserResources email c s =
      (⟨ex.spreadsheetId, ex.folderId, nextVoucherNumber email c s.vouchers⟩, s, []) := by
  unfold getUserResources
  rw [hfind]

theorem getUserResources_of_missing {email c : String} {s : ServerState}
    (hfind : s.vouchers.find? (matchesPair email c) = none) :
    getUserResources email c s =
      (⟨s.nextId, s.nextId + 1, nextVoucherNumber email c s.vouchers⟩,
       { s with nextId := s.nextId + 2, sheets := s.sheets ++ [(s.nextId, c, [])] },
       [Effect.createSheet s.nextId (c ++ " Vouchers"),
        Effect.createFolder (s.nextId + 1) (c ++ " Vouchers")]) := by
  unfold getUserResources
  rw [hfind]

theorem submit_eq (email : String) (d : VoucherData) (s : ServerState)
    (hf : validFilters.contains d.filter = true) :
    submit email d s = submitCore email d (getUserResources email d.filter s).1
      (getUserResources email d.filter s).2.1 (getUserResources email d.filter s).2.2 := by
  unfold submit
  rw [hf]
  simp

theorem submitCore_spec (email : String) (d : VoucherData) (r : Resources)
    (s1 : ServerState) (effs1 : List Effect)
    (halloc : 0 < r.voucherNumber) (he : email ≠ "") (hfne : d.filter ≠ "")
    (ht : transactionTypes.contains d.transactionType = true) :
    (submitCore email d r s1 effs1).1 =
        .ok ⟨sheetURLOf r.spreadsheetId, s1.nextId⟩
    ∧ (submitCore email d r s1 effs1).2.1.vouchers =
        s1.vouchers ++ [mkSubmittedVoucher s1.nextRecordId email d
          (chosenVoucherNo d.voucherNo r.voucherNumber)
          (driveLink s1.nextId) r.spreadsheetId r.folderId s1.nextId]
    ∧ (submitCore email d r s1 effs1).2.2 = effs1 ++
        [Effect.renderPdf (pdfName d.filter (chosenVoucherNo d.voucherNo r.voucherNumber))
           (chosenVoucherNo d.voucherNo r.voucherNumber),
         Effect.uploadPdf s1.nextId r.folderId
           (pdfName d.filter (chosenVoucherNo d.voucherNo r.voucherNumber)),
         Effect.appendRow r.spreadsheetId d.filter
           (sheetRowValues (chosenVoucherNo d.voucherNo r.voucherNumber) d
             (driveLink s1.nextId))] := by
  have hn0 : (chosenVoucherNo d.voucherNo r.voucherNumber == 0) = false := by
    have hpos := chosenVoucherNo_pos d.voucherNo r.voucherNumber halloc
    simp only [beq_eq_false_iff_ne]
    omega
  have ht2 : d.transactionType ∈ transactionTypes := by simpa using ht
  have hvv : ∀ rid : Nat, validVoucher (mkSubmittedVoucher rid email d
      (chosenVoucherNo d.voucherNo r.voucherNumber)
      (driveLink s1.nextId) r.spreadsheetId r.folderId s1.nextId) = true := by
    intro rid
    simp [validVoucher, mkSubmittedVoucher, bne_iff_ne, he, hfne, ht2]
  refine ⟨?_, ?_, ?_⟩ <;>
    simp [submitCore, hn0, hvv, setSheetRows_vouchers, setSheetRows_nextRecordId]

theorem submit_success (email : String) (d : VoucherData) (s : ServerState)
    (hf : validFilters.contains d.filter = true) (he : email ≠ "")
    (ht : transactionTypes.contains d.transactionType = true) :
    ∃ sid fid fileId rid pre,
      (submit email d s).1 = .ok ⟨sheetURLOf sid, fileId⟩
      ∧ (submit email d s).2.1.vouchers = s.vouchers ++
          [mkSubmittedVoucher rid email d
            (chosenVoucherNo d.voucherNo (nextVoucherNumber email d.filter s.vouchers))
            (driveLink fileId) sid fid fileId]
      ∧ (submit email d s).2.2 = pre ++
          [Effect.renderPdf
             (pdfName d.filter (chosenVoucherNo d.voucherNo
               (nextVoucherNumber email d.filter s.vouchers)))
             (chosenVoucherNo d.voucherNo (nextVoucherNumber email d.filter s.vouchers)),
           Effect.uploadPdf fileId fid
             (pdfName d.filter (chosenVoucherNo d.voucherNo
               (nextVoucherNumber email d.filter s.vouchers))),
           Effect.appendRow sid d.filter
             (sheetRowValues (chosenVoucherNo d.voucherNo
               (nextVoucherNumber email d.filter s.vouchers)) d (driveLink fileId))]
      ∧ (s.vouchers.find? (matchesPair email d.filter) = none →
           pre = [Effect.createSheet sid (d.filter ++ " Vouchers"),
                  Effect.createFolder fid (d.filter ++ " Vouchers")]
           ∧ sid = s.nextId ∧ fid = s.nextId + 1)
      ∧ (∀ ex, s.vouchers.find? (matchesPair email d.filter) = some ex →
           pre = [] ∧ sid = ex.spreadsheetId ∧ fid = ex.folderId) := by
  have hfne := validFilter_ne_empty hf
  have halloc := nextVoucherNumber_pos email d.filter s.vouchers
  rw [submit_eq email d s hf]
  cases hfind : s.vouchers.find? (matchesPair email d.filter) with
  | none =>
      rw [getUserResources_of_missing hfind]
      obtain ⟨h1, h2, h3⟩ := submitCore_spec email d
        ⟨s.nextId, s.nextId + 1, nextVoucherNumber email d.filter s.vouchers⟩
        { s with nextId := s.nextId + 2, sheets := s.sheets ++ [(s.nextId, d.filter, [])] }
        [Effect.createSheet s.nextId (d.filter ++ " Vouchers"),
         Effect.createFolder (s.nextId + 1) (d.filter ++ " Vouchers")]
        halloc he hfne ht
      refine ⟨s.nextId, s.nextId + 1, s.nextId + 2, s.nextRecordId,
        [Effect.createSheet s.nextId (d.filter ++ " Vouchers"),
         Effect.createFolder (s.nextId + 1) (d.filter ++ " Vouchers")],
        ?_, ?_, ?_, ?_, ?_⟩
      · exact h1
      · exact h2
      · exact h3
      · intro _
        exact ⟨rfl, rfl, rfl⟩
      · intro ex2 hex2
        exact Option.noConfusion hex2
  | some ex =>
      rw [getUserResources_of_found hfind]
      obtain ⟨h1, h2, h3⟩ := submitCore_spec email d
        ⟨ex.spreadsheetId, ex.folderId, nextVoucherNumber email d.filter s.vouchers⟩
        s [] halloc he hfne ht
      refine ⟨ex.spreadsheetId, ex.folderId, s.nextId, s.nextRecordId, [],
        ?_, ?_, ?_, ?_, ?_⟩
      · exact h1
      · exact h2
      · exact h3
      · intro hc
        exact Option.noConfusion hc
      · intro ex2 hex2
        injection hex2 with hx
        subst hx
        exact ⟨rfl, rfl, rfl⟩

/-! ## Submission sequence lemmas -/

/-- Run a sequence of non-concurrent submit requests (owner email and
request body), each applied to the state the previous one produced. -/
def runSubmits : List (String × VoucherData) → ServerState → ServerState
  | [], s => s
  | p :: rest, s => runSubmits rest (submit p.1 p.2 s).2.1

/-- Request-intrinsic success of a submit whose body carries no client
voucherNo: the filter is in the registry and the mongoose validation
will pass (owner email non-empty, transactionType in the enum).  No
other part of the submit sequence can fail in the model. -/
def submitOk (email : String) (d : VoucherData) : Bool :=
  validFilters.contains d.filter && email != "" && transactionTypes.contains d.transactionType

/-- The number of requests of a sequence that target the given
(owner, company) pair and succeed. -/
def pairSubmits (email c : String) (reqs : List (String × VoucherData)) : Nat :=
  reqs.countP (fun p => submitOk p.1 p.2 && p.1 == email && p.2.filter == c)

theorem maxFold_append (l : List Nat) (n : Nat) :
    maxFold (l ++ [n]) =
      some (match maxFold l with
            | none => n
            | some m => if m ≤ n then n else m) := by
  induction l with
  | nil => simp [maxFold]
  | cons a as ih =>
      rw [List.cons_append, maxFold, ih]
      cases hm : maxFold as with
      | none => rw [maxFold, hm]
      | some m =>
          rw [maxFold, hm]
          simp only [Option.some.injEq]
          split_ifs <;> omega

theorem highestVoucherNo_append (email c : String) (vs : List Voucher) (v : Voucher) :
    highestVoucherNo email c (vs ++ [v]) =
      if matchesPair email c v then
        some (match highestVoucherNo email c vs with
              | none => v.voucherNo
              | some m => if m ≤ v.voucherNo then v.voucherNo else m)
      else highestVoucherNo email c vs := by
  unfold highestVoucherNo
  rw [List.filter_append]
  by_cases hm : matchesPair email c v = true
  · simp [hm, maxFold_append]
  · simp [hm]

theorem submitCore_vouchers_of_invalid (email : String) (d : VoucherData) (r : Resources)
    (s1 : ServerState) (effs1 : List Effect) (halloc : 0 < r.voucherNumber)
    (hval : ∀ rid : Nat, validVoucher (mkSubmittedVoucher rid email d
      (chosenVoucherNo d.voucherNo r.voucherNumber) (driveLink s1.nextId)
      r.spreadsheetId r.folderId s1.nextId) = false) :
    (submitCore email d r s1 effs1).2.1.vouchers = s1.vouchers := by
  have hn0 : (chosenVoucherNo d.voucherNo r.voucherNumber == 0) = false := by
    have hpos := chosenVoucherNo_pos d.voucherNo r.voucherNumber halloc
    simp only [beq_eq_false_iff_ne]
    omega
  simp [submitCore, hn0, hval, setSheetRows_vouchers, setSheetRows_nextRecordId]

theorem submit_vouchers_of_not_ok (e : String) (d : VoucherData) (s : ServerState)
    (hnot : submitOk e d = false) :
    (submit e d s).2.1.vouchers = s.vouchers := by
  by_cases hf : validFilters.contains d.filter = true
  · have halloc : 0 < ((getUserResources e d.filter s).1).voucherNumber := by
      rw [getUserResources_voucherNumber]
      exact nextVoucherNumber_pos e d.filter s.vouchers
    have hfne : (d.filter != "") = true := by
      simpa [bne_iff_ne] using validFilter_ne_empty hf
    have hval : ∀ rid : Nat, validVoucher (mkSubmittedVoucher rid e d
        (chosenVoucherNo d.voucherNo ((getUserResources e d.filter s).1).voucherNumber)
        (driveLink ((getUserResources e d.filter s).2.1).nextId)
        ((getUserResources e d.filter s).1).spreadsheetId
        ((getUserResources e d.filter s).1).folderId
        ((getUserResources e d.filter s).2.1).nextId) = false := by
      intro rid
      cases hA : (e != "") with
      | false => simp [validVoucher, mkSubmittedVoucher, hA]
      | true =>
          have hC : transactionTypes.contains d.transactionType = false := by
            have heq : submitOk e d = transactionTypes.contains d.transactionType := by
              unfold submitOk
              rw [hf, hA]
              simp
            rw [← heq]
            exact hnot
          simp only [validVoucher, mkSubmittedVoucher]
          rw [hC, Bool.and_false]
    rw [submit_eq e d s hf,
      submitCore_vouchers_of_invalid e d _ _ _ halloc hval,
      getUserResources_vouchers]
  · have hf2 : validFilters.contains d.filter = false := by
      cases hcon : validFilters.contains d.filter
      · rfl
      · exact absurd hcon hf
    unfold submit
    rw [hf2]
    simp

theorem runSubmits_highest (email c : String) (reqs : List (String × VoucherData)) :
    ∀ (s : ServerState) (j : Nat),
    (∀ p ∈ reqs, p.2.voucherNo = none) →
    highestVoucherNo email c s.vouchers = (if j = 0 then none else some j) →
    highestVoucherNo email c (runSubmits reqs s).vouchers
      = (if j + pairSubmits email c reqs = 0 then none
         else some (j + pairSubmits email c reqs)) := by
  induction reqs with
  | nil =>
      intro s j _ hj
      simpa [runSubmits, pairSubmits] using hj
  | cons p rest ih =>
      intro s j hreq hj
      have hclp : p.2.voucherNo = none := hreq p (List.mem_cons_self _ _)
      have hrest : ∀ q ∈ rest, q.2.voucherNo = none :=
        fun q hq => hreq q (List.mem_cons_of_mem _ hq)
      simp only [runSubmits]
      by_cases hok : submitOk p.1 p.2 = true
      · have hok2 := hok
        rw [submitOk, Bool.and_eq_true, Bool.and_eq_true] at hok2
        obtain ⟨⟨hf, hB⟩, ht⟩ := hok2
        have he : p.1 ≠ "" := bne_iff_ne.mp hB
        obtain ⟨sid, fid, fileId, rid, pre, _, h2, _, _, _⟩ :=
          submit_success p.1 p.2 s hf he ht
        rw [hclp] at h2
        simp only [chosenVoucherNo] at h2
        by_cases hpair : (p.1 == email && p.2.filter == c) = true
        · obtain ⟨hpe, hpc⟩ : p.1 = email ∧ p.2.filter = c := by
            simpa [Bool.and_eq_true] using hpair
          have hnext : nextVoucherNumber p.1 p.2.filter s.vouchers = j + 1 := by
            rw [hpe, hpc]
            unfold nextVoucherNumber
            rw [hj]
            by_cases hjz : j = 0
            · simp [hjz]
            · simp [hjz]
          rw [hnext] at h2
          have hnew : highestVoucherNo email c ((submit p.1 p.2 s).2.1).vouchers
              = some (j + 1) := by
            rw [h2, highestVoucherNo_append]
            have hm : matchesPair email c
                (mkSubmittedVoucher rid p.1 p.2 (j + 1) (driveLink fileId) sid fid fileId)
                = true := by
              simp [matchesPair, mkSubmittedVoucher, hpe, hpc]
            rw [if_pos hm, hj]
            by_cases hjz : j = 0
            · simp [hjz, mkSubmittedVoucher]
            · rw [if_neg hjz]
              have hle : j ≤ j + 1 := Nat.le_succ j
              simp [mkSubmittedVoucher, hle]
          have hrec := ih ((submit p.1 p.2 s).2.1) (j + 1) hrest (by simpa using hnew)
          have hb12 := hpair
          rw [Bool.and_eq_true] at hb12
          have hcnt : pairSubmits email c (p :: rest) = pairSubmits email c rest + 1 := by
            unfold pairSubmits
            rw [List.countP_cons_of_pos]
            rw [Bool.and_eq_true, Bool.and_eq_true]
            exact ⟨⟨hok, hb12.1⟩, hb12.2⟩
          rw [hcnt]
          have harith : j + (pairSubmits email c rest + 1)
              = (j + 1) + pairSubmits email c rest := by omega
          rw [harith]
          exact hrec
        · have hm : matchesPair email c
              (mkSubmittedVoucher rid p.1 p.2
                (nextVoucherNumber p.1 p.2.filter s.vouchers)
                (driveLink fileId) sid fid fileId) = false := by
            have hne : ¬ (p.1 = email ∧ p.2.filter = c) := by
              intro hcon
              exact hpair (by simp [hcon.1, hcon.2])
            simp only [matchesPair, mkSubmittedVoucher]
            cases hc1 : (p.1 == email) with
            | false => simp
            | true =>
                have hc2 : (p.2.filter == c) = false := by
                  cases hc2 : (p.2.filter == c) with
                  | false => rfl
                  | true => exact absurd ⟨beq_iff_eq.mp hc1, beq_iff_eq.mp hc2⟩ hne
                simp [hc2]
          have hnew : highestVoucherNo email c ((submit p.1 p.2 s).2.1).vouchers
              = (if j = 0 then none else some j) := by
            rw [h2, highestVoucherNo_append, if_neg (by simp [hm]), hj]
          have hcnt : pairSubmits email c (p :: rest) = pairSubmits email c rest := by
            unfold pairSubmits
            rw [List.countP_cons_of_neg]
            intro hcon
            rw [Bool.and_eq_true, Bool.and_eq_true] at hcon
            exact hpair (by rw [Bool.and_eq_true]; exact ⟨hcon.1.2, hcon.2⟩)
          rw [hcnt]
          exact ih ((submit p.1 p.2 s).2.1) j hrest hnew
      · have hnot : submitOk p.1 p.2 = false := by
          cases hcon : submitOk p.1 p.2
          · rfl
          · exact absurd hcon hok
        have hnew : (submit p.1 p.2 s).2.1.vouchers = s.vouchers :=
          submit_vouchers_of_not_ok p.1 p.2 s hnot
        have hcnt : pairSubmits email c (p :: rest) = pairSubmits email c rest := by
          unfold pairSubmits
          rw [List.countP_cons_of_neg]
          intro hcon
          rw [Bool.and_eq_true, Bool.and_eq_true] at hcon
          rw [hnot] at hcon
          exact Bool.false_ne_true hcon.1.1
        rw [hcnt]
        exact ih ((submit p.1 p.2 s).2.1) j hrest (by rw [hnew]; exact hj)

/-! ## C2 (amended) -/

/-- C2 amended: for every (owner, company) pair and every sequence of
non-concurrent submit requests with no deletions and no client-supplied
voucherNo — the bodies may vary and requests for other owners or
companies may be interleaved — starting from a store with no vouchers
for the pair, the first successful submission for the pair is saved with
number 1 and the Nth with number N, the count of prior successful
submissions for that pair plus one.  (As frozen, with deletions allowed,
the claim is false: see the counterexample, where the code assigns
highest surviving number + 1 instead of count of non-deleted + 1.) -/
theorem submit_sequence_numbers (email : String) (d : VoucherData)
    (pre : List (String × VoucherData)) (s : ServerState)
    (hf : validFilters.contains d.filter = true) (he : email ≠ "")
    (ht : transactionTypes.contains d.transactionType = true)
    (hcl : d.voucherNo = none)
    (hpre : ∀ p ∈ pre, p.2.voucherNo = none)
    (h0 : s.vouchers.filter (matchesPair email d.filter) = []) :
    ∃ v, (submit email d (runSubmits pre s)).2.1.vouchers
        = (runSubmits pre s).vouchers ++ [v]
      ∧ v.email = email ∧ v.company = d.filter
      ∧ v.voucherNo = pairSubmits email d.filter pre + 1 := by
  have hbase : highestVoucherNo email d.filter s.vouchers
      = (if 0 = 0 then none else some 0) := by
    simp [highestVoucherNo, h0, maxFold]
  have hhi := runSubmits_highest email d.filter pre s 0 hpre hbase
  simp only [Nat.zero_add] at hhi
  have hnext : nextVoucherNumber email d.filter (runSubmits pre s).vouchers
      = pairSubmits email d.filter pre + 1 := by
    unfold nextVoucherNumber
    rw [hhi]
    by_cases hz : pairSubmits email d.filter pre = 0
    · simp [hz]
    · simp [hz]
  obtain ⟨sid, fid, fileId, rid, pre2, _, h2, _, _, _⟩ :=
    submit_success email d (runSubmits pre s) hf he ht
  rw [hcl] at h2
  simp only [chosenVoucherNo, hnext] at h2
  exact ⟨_, h2, rfl, rfl, rfl⟩

/-! ## C5 -/

/-- C5: an edit request (with a valid filter) whose record id does not
belong to an existing voucher owned by the caller fails with
voucher-not-found, performs no spreadsheet write, no document upload or
deletion (the effect list is empty), and no record-store mutation (the
state is returned unchanged). -/
theorem edit_unknown_id_no_mutation (email : String) (vid : Nat) (d : VoucherData)
    (s : ServerState)
    (hf : validFilters.contains d.filter = true)
    (h : s.vouchers.find? (matchesIdOwner vid email) = none) :
    editVoucher email vid d s = (.error .voucherNotFound, s, []) := by
  unfold editVoucher
  rw [hf]
  simp [h]

/-! ## C6 -/

/-- C6: when the spreadsheet row whose first cell equals the voucher
number cannot be located, the delete route proceeds (the row-clearing
step is skipped silently: no clearRow effect, the sheets are untouched,
and the record-store row is still removed) while the edit route aborts
with a row-not-found error before updating the record store. -/
theorem row_not_found_delete_forgiving_edit_fatal :
    (∀ (email : String) (n : Nat) (s : ServerState) (ex : Voucher),
      s.vouchers.find? (matchesNoOwner n email) = some ex →
      findRowIdx (getSheetRows ex.spreadsheetId s) n = none →
      (deleteVoucher email n s).1 = .ok ()
      ∧ (deleteVoucher email n s).2.1.vouchers
          = deleteFirst (matchesNoOwner n email) s.vouchers
      ∧ (deleteVoucher email n s).2.1.sheets = s.sheets
      ∧ ∀ e ∈ (deleteVoucher email n s).2.2, ∀ sid title i, e ≠ Effect.clearRow sid title i)
    ∧ (∀ (email : String) (vid : Nat) (d : VoucherData) (s : ServerState) (ex : Voucher)
        (rows : List (List String)),
      validFilters.contains d.filter = true →
      s.vouchers.find? (matchesIdOwner vid email) = some ex →
      readSheetRange ex.spreadsheetId d.filter s = some rows →
      findRowIdx rows ex.voucherNo = none →
      (editVoucher email vid d s).1 = .error .rowNotFound
      ∧ (editVoucher email vid d s).2.1.vouchers = s.vouchers) := by
  constructor
  · intro email n s ex hfind hrow
    unfold deleteVoucher
    rw [hfind]
    simp only [hrow]
    refine ⟨trivial, trivial, trivial, ?_⟩
    intro e he sid title i
    cases hpdf : ex.pdfFileId with
    | none => simp [hpdf] at he
    | some fid =>
        simp [hpdf] at he
        subst he
        intro hcon
        cases hcon
  · intro email vid d s ex rows hf hfind hread hrow
    have hread1 : readSheetRange ex.spreadsheetId d.filter
        { s with nextId := s.nextId + 1 } = some rows := hread
    unfold editVoucher
    rw [hf]
    simp only [Bool.not_true, Bool.false_eq_true, if_false, hfind, hread1, hrow]
    exact ⟨trivial, trivial⟩

/-! ## C9 -/

/-- C9 amended: every successful edit leaves the stored voucher's owner
email, company, voucher number, spreadsheetId and folderId unchanged —
the record-store update (applied to the first record matching the id and
owner) writes only the editable content fields plus the new document
link and document id, and the row written to the sheet carries the
voucher number of the existing record — and an edit whose request filter
differs from the stored company is rejected by the spreadsheet service
at the range read (the workspace's only sheet is named after the stored
company) before any record-store update, so no cross-company edit
succeeds.  (As frozen, the claim supposed an edit with a filter
differing from the stored company can complete: see the
counterexample.) -/
theorem edit_frame_preserves_identity :
    (∀ (email : String) (vid : Nat) (d : VoucherData) (s : ServerState) (ex : Voucher)
        (rows : List (List String)) (i : Nat),
      validFilters.contains d.filter = true →
      s.vouchers.find? (matchesIdOwner vid email) = some ex →
      readSheetRange ex.spreadsheetId d.filter s = some rows →
      findRowIdx rows ex.voucherNo = some i →
      (editVoucher email vid d s).1 = .ok ⟨sheetURLOf ex.spreadsheetId, s.nextId⟩
      ∧ (editVoucher email vid d s).2.1.vouchers =
          updateFirst (matchesIdOwner vid email)
            (applyEditUpdate d (driveLink s.nextId) s.nextId) s.vouchers
      ∧ (∀ v : Voucher,
          (applyEditUpdate d (driveLink s.nextId) s.nextId v).email = v.email
          ∧ (applyEditUpdate d (driveLink s.nextId) s.nextId v).company = v.company
          ∧ (applyEditUpdate d (driveLink s.nextId) s.nextId v).voucherNo = v.voucherNo
          ∧ (applyEditUpdate d (driveLink s.nextId) s.nextId v).spreadsheetId
              = v.spreadsheetId
          ∧ (applyEditUpdate d (driveLink s.nextId) s.nextId v).folderId = v.folderId
          ∧ (applyEditUpdate d (driveLink s.nextId) s.nextId v).date = d.date
          ∧ (applyEditUpdate d (driveLink s.nextId) s.nextId v).payTo = d.payTo
          ∧ (applyEditUpdate d (driveLink s.nextId) s.nextId v).accountHead = d.accountHead
          ∧ (applyEditUpdate d (driveLink s.nextId) s.nextId v).account = d.account
          ∧ (applyEditUpdate d (driveLink s.nextId) s.nextId v).transactionType
              = d.transactionType
          ∧ (applyEditUpdate d (driveLink s.nextId) s.nextId v).amount = d.amount
          ∧ (applyEditUpdate d (driveLink s.nextId) s.nextId v).amountRs = d.amountRs
          ∧ (applyEditUpdate d (driveLink s.nextId) s.nextId v).checkedBy = d.checkedBy
          ∧ (applyEditUpdate d (driveLink s.nextId) s.nextId v).approvedBy = d.approvedBy
          ∧ (applyEditUpdate d (driveLink s.nextId) s.nextId v).receiverSignature
              = d.receiverSignature
          ∧ (applyEditUpdate d (driveLink s.nextId) s.nextId v).pdfLink = driveLink s.nextId
          ∧ (applyEditUpdate d (driveLink s.nextId) s.nextId v).pdfFileId = some s.nextId)
      ∧ Effect.updateRow ex.spreadsheetId d.filter i
          (sheetRowValues ex.voucherNo d (driveLink s.nextId))
          ∈ (editVoucher email vid d s).2.2
      ∧ Effect.renderPdf (pdfName d.filter ex.voucherNo) ex.voucherNo
          ∈ (editVoucher email vid d s).2.2)
    ∧ (∀ (email : String) (vid : Nat) (d : VoucherData) (s : ServerState) (ex : Voucher)
        (rows0 : List (List String)),
      validFilters.contains d.filter = true →
      s.vouchers.find? (matchesIdOwner vid email) = some ex →
      s.sheets.find? (fun p => p.fst == ex.spreadsheetId)
          = some (ex.spreadsheetId, ex.company, rows0) →
      d.filter ≠ ex.company →
      (editVoucher email vid d s).1 = .error .rangeError
      ∧ (editVoucher email vid d s).2.1.vouchers = s.vouchers) := by
  constructor
  · intro email vid d s ex rows i hf hfind hread hrow
    have hread1 : readSheetRange ex.spreadsheetId d.filter
        { s with nextId := s.nextId + 1 } = some rows := hread
    unfold editVoucher
    rw [hf]
    simp only [Bool.not_true, Bool.false_eq_true, if_false, hfind, hread1, hrow]
    refine ⟨trivial, ?_, ?_, ?_, ?_⟩
    · rw [setSheetRows_vouchers]
    · intro v
      refine ⟨rfl, rfl, rfl, rfl, rfl, rfl, rfl, rfl, rfl,
        rfl, rfl, rfl, rfl, rfl, rfl, rfl, rfl⟩
    · simp
    · simp
  · intro email vid d s ex rows0 hf hfind hentry hne
    have hread1 : readSheetRange ex.spreadsheetId d.filter
        { s with nextId := s.nextId + 1 } = none := by
      have hentry1 : ({ s with nextId := s.nextId + 1 } : ServerState).sheets.find?
          (fun p => p.fst == ex.spreadsheetId)
          = some (ex.spreadsheetId, ex.company, rows0) := hentry
      unfold readSheetRange
      rw [hentry1]
      have hbeq : (ex.company == d.filter) = false := by
        simp only [beq_eq_false_iff_ne]
        exact fun hcon => hne hcon.symm
      simp [hbeq]
    unfold editVoucher
    rw [hf]
    simp only [Bool.not_true, Bool.false_eq_true, if_false, hfind, hread1]
    exact ⟨trivial, trivial⟩

/-! ## C10 -/

theorem two_le_countP {α : Type} (p : α → Bool) (l : List α) (x y : α)
    (hx : x ∈ l) (hy : y ∈ l) (hxy : x ≠ y) (hpx : p x = true) (hpy : p y = true) :
    2 ≤ l.countP p := by
  induction l with
  | nil => simp at hx
  | cons a as ih =>
      rcases List.mem_cons.mp hx with rfl | hx2
      · rcases List.mem_cons.mp hy with rfl | hy2
        · exact absurd rfl hxy
        · rw [List.countP_cons_of_pos p as hpx]
          have hpos : 0 < as.countP p := List.countP_pos_iff.mpr ⟨y, hy2, hpy⟩
          omega
      · rcases List.mem_cons.mp hy with rfl | hy2
        · rw [List.countP_cons_of_pos p as hpy]
          have hpos : 0 < as.countP p := List.countP_pos_iff.mpr ⟨x, hx2, hpx⟩
          omega
        · have hge := ih hx2 hy2
          rw [List.countP_cons]
          omega

theorem deleteFirst_countP (p : Voucher → Bool) (l : List Voucher)
    (h : ∃ x ∈ l, p x = true) :
    (deleteFirst p l).countP p + 1 = l.countP p := by
  induction l with
  | nil => simp at h
  | cons a as ih =>
      by_cases hpa : p a = true
      · unfold deleteFirst
        rw [if_pos hpa, List.countP_cons_of_pos p as hpa]
      · obtain ⟨x, hx, hpx⟩ := h
        rcases List.mem_cons.mp hx with rfl | hx2
        · exact absurd hpx hpa
        · unfold deleteFirst
          rw [if_neg hpa, List.countP_cons_of_neg p _ hpa,
            List.countP_cons_of_neg p as hpa]
          exact ih ⟨x, hx2, hpx⟩

/-- C10: the delete route locates its target by (voucher number, owner
email) only, with no company constraint: when an owner holds two
distinct vouchers with the same number under two different companies,
a delete of that number succeeds, removes exactly one of the matching
records, and every external effect (document deletion, row clearing)
targets the record returned by the lookup (the first match) — its
pdfFileId, its spreadsheetId and the sheet named after its company. -/
theorem delete_matches_number_owner_only (email : String) (n : Nat) (s : ServerState)
    (v1 v2 : Voucher)
    (h1 : v1 ∈ s.vouchers) (h2 : v2 ∈ s.vouchers)
    (hm1 : matchesNoOwner n email v1 = true) (hm2 : matchesNoOwner n email v2 = true)
    (hc : v1.company ≠ v2.company) :
    2 ≤ s.vouchers.countP (matchesNoOwner n email)
    ∧ (deleteVoucher email n s).1 = .ok ()
    ∧ (deleteVoucher email n s).2.1.vouchers.countP (matchesNoOwner n email) + 1
        = s.vouchers.countP (matchesNoOwner n email)
    ∧ ∃ ex, s.vouchers.find? (matchesNoOwner n email) = some ex
        ∧ ∀ e ∈ (deleteVoucher email n s).2.2,
            (∃ fid, ex.pdfFileId = some fid ∧ e = Effect.deletePdf fid)
            ∨ (∃ i, e = Effect.clearRow ex.spreadsheetId ex.company i) := by
  have hne : v1 ≠ v2 := fun hcon => hc (congrArg Voucher.company hcon)
  have hsome : (s.vouchers.find? (matchesNoOwner n email)).isSome :=
    List.find?_isSome.mpr ⟨v1, h1, hm1⟩
  obtain ⟨ex, hex⟩ := Option.isSome_iff_exists.mp hsome
  refine ⟨two_le_countP _ _ v1 v2 h1 h2 hne hm1 hm2, ?_, ?_, ?_⟩
  · unfold deleteVoucher
    rw [hex]
  · have hdel : (deleteVoucher email n s).2.1.vouchers
        = deleteFirst (matchesNoOwner n email) s.vouchers := by
      unfold deleteVoucher
      rw [hex]
      cases hrow : findRowIdx (getSheetRows ex.spreadsheetId s) n with
      | none => simp [hrow]
      | some i => simp [hrow, setSheetRows_vouchers]
    rw [hdel]
    exact deleteFirst_countP _ _ ⟨v1, h1, hm1⟩
  · refine ⟨ex, hex, ?_⟩
    intro e he
    have heff : (deleteVoucher email n s).2.2 =
        (match ex.pdfFileId with
         | some fid => [Effect.deletePdf fid]
         | none => []) ++
        (match findRowIdx (getSheetRows ex.spreadsheetId s) n with
         | some i => [Effect.clearRow ex.spreadsheetId ex.company i]
         | none => []) := by
      unfold deleteVoucher
      rw [hex]
      cases hrow : findRowIdx (getSheetRows ex.spreadsheetId s) n with
      | none => simp [hrow]
      | some i => simp [hrow]
    rw [heff] at he
    rcases List.mem_append.mp he with hl | hr
    · left
      cases hpdf : ex.pdfFileId with
      | none => rw [hpdf] at hl; simp at hl
      | some fid =>
          rw [hpdf] at hl
          simp only [List.mem_singleton] at hl
          exact ⟨fid, rfl, hl⟩
    · right
      cases hrow : findRowIdx (getSheetRows ex.spreadsheetId s) n with
      | none => rw [hrow] at hr; simp at hr
      | some i =>
          rw [hrow] at hr
          simp only [List.mem_singleton] at hr
          exact ⟨i, hr⟩

/-! ## C7 -/

/-- C7: workspace provisioning is idempotent per (owner, company): when
at least one voucher already exists for the pair, submit reuses that
voucher's stored spreadsheet and folder ids (the ids of the record the
lookup returns) and emits no creation effect; when the pair has no
voucher — as for a different company of the same owner — and every
stored id lies below the fresh-id counter, submit provisions a
spreadsheet/folder pair distinct from every stored id and from each
other. -/
theorem submit_provisioning_idempotent (email : String) (d : VoucherData)
    (s : ServerState)
    (hf : validFilters.contains d.filter = true) (he : email ≠ "")
    (ht : transactionTypes.contains d.transactionType = true) :
    (∀ ex, s.vouchers.find? (matchesPair email d.filter) = some ex →
      (∀ e ∈ (submit email d s).2.2,
        (∀ i t, e ≠ Effect.createSheet i t) ∧ (∀ i t, e ≠ Effect.createFolder i t))
      ∧ ∃ w, (submit email d s).2.1.vouchers = s.vouchers ++ [w]
          ∧ w.spreadsheetId = ex.spreadsheetId ∧ w.folderId = ex.folderId)
    ∧ (s.vouchers.find? (matchesPair email d.filter) = none →
      (∀ v ∈ s.vouchers, v.spreadsheetId < s.nextId ∧ v.folderId < s.nextId) →
      ∃ w, (submit email d s).2.1.vouchers = s.vouchers ++ [w]
        ∧ (∀ v ∈ s.vouchers, w.spreadsheetId ≠ v.spreadsheetId ∧ w.folderId ≠ v.folderId)
        ∧ w.spreadsheetId ≠ w.folderId) := by
  obtain ⟨sid, fid, fileId, rid, pre, _, h2, h3, h4, h5⟩ := submit_success email d s hf he ht
  constructor
  · intro ex hex
    obtain ⟨hpre, hsid, hfid⟩ := h5 ex hex
    constructor
    · intro e hmem
      rw [h3, hpre] at hmem
      simp only [List.nil_append, List.mem_cons, List.not_mem_nil, or_false] at hmem
      rcases hmem with rfl | rfl | rfl
      · exact ⟨fun i t hcon => Effect.noConfusion hcon,
          fun i t hcon => Effect.noConfusion hcon⟩
      · exact ⟨fun i t hcon => Effect.noConfusion hcon,
          fun i t hcon => Effect.noConfusion hcon⟩
      · exact ⟨fun i t hcon => Effect.noConfusion hcon,
          fun i t hcon => Effect.noConfusion hcon⟩
    · refine ⟨_, h2, ?_, ?_⟩
      · show sid = ex.spreadsheetId
        exact hsid
      · show fid = ex.folderId
        exact hfid
  · intro hnone hwf
    obtain ⟨hpre, hsid, hfid⟩ := h4 hnone
    refine ⟨_, h2, ?_, ?_⟩
    · intro v hv
      have hb := hwf v hv
      constructor
      · show sid ≠ v.spreadsheetId
        rw [hsid]
        omega
      · show fid ≠ v.folderId
        rw [hfid]
        omega
    · show sid ≠ fid
      rw [hsid, hfid]
      omega

/-! ## C3 -/

/-- The fixed header schema as the spec words it: number, date,
category, payee, account head, towards, transaction type, amount,
amount-in-words, checked-by, approved-by, receiver-signature, document
link.  Written from the words of the spec, to be compared with the row
the code appends. -/
def specSchemaRow (number : Nat) (date category payee accountHead towards
    transactionType amount amountInWords checkedBy approvedBy
    receiverSignature documentLink : String) : List String :=
  [toString number, date, category, payee, accountHead, towards,
   transactionType, amount, amountInWords, checkedBy, approvedBy,
   receiverSignature, documentLink]

/-- C3: every successful submit appends to the spreadsheet exactly one
row with as many cells as the fixed 13-column header written at
provisioning, and the cells appear in exactly the order of the fixed
header schema: cell i holds the field that position i of the schema
names (number, date, category, payee, account head, towards,
transaction type, amount, amount-in-words, checked-by, approved-by,
receiver-signature, document link). -/
theorem submit_row_matches_header_schema (email : String) (d : VoucherData)
    (s : ServerState)
    (hf : validFilters.contains d.filter = true) (he : email ≠ "")
    (ht : transactionTypes.contains d.transactionType = true) :
    ∃ sid fileId row,
      Effect.appendRow sid d.filter row ∈ (submit email d s).2.2
      ∧ row.length = headerValues.length
      ∧ row = specSchemaRow
          (chosenVoucherNo d.voucherNo (nextVoucherNumber email d.filter s.vouchers))
          d.date d.filter d.payTo d.accountHead d.account d.transactionType
          d.amount d.amountRs d.checkedBy d.approvedBy d.receiverSignature
          (driveLink fileId) := by
  obtain ⟨sid, fid, fileId, rid, pre, _, _, h3, _, _⟩ := submit_success email d s hf he ht
  refine ⟨sid, fileId,
    sheetRowValues (chosenVoucherNo d.voucherNo
      (nextVoucherNumber email d.filter s.vouchers)) d (driveLink fileId),
    ?_, ?_, ?_⟩
  · rw [h3]
    simp
  · rfl
  · rfl

/-! ## C8 -/

/-- The predicate used by the round-trip claim: the stored voucher
matches the submitted field set of the request body (all form fields,
the company being the filter of the request). -/
def matchesSubmitted (email : String) (d : VoucherData) (v : Voucher) : Bool :=
  v.email == email && v.company == d.filter && v.date == d.date
  && v.payTo == d.payTo && v.accountHead == d.accountHead
  && v.account == d.account && v.transactionType == d.transactionType
  && v.amount == d.amount && v.amountRs == d.amountRs
  && v.checkedBy == d.checkedBy && v.approvedBy == d.approvedBy
  && v.receiverSignature == d.receiverSignature

theorem listVouchers_perm (email : String) (company date sort : Option String)
    (s : ServerState) :
    List.Perm (listVouchers email company date sort s)
      (s.vouchers.filter (fun v =>
        v.email == email
        && (match company with | some c => v.company == c | none => true)
        && (match date with | some dt => v.date == dt | none => true))) := by
  unfold listVouchers
  split_ifs <;> exact List.mergeSort_perm _ _

theorem listVouchers_none_perm (email : String) (sort : Option String) (s : ServerState) :
    List.Perm (listVouchers email none none sort s)
      (s.vouchers.filter (fun v => v.email == email)) := by
  have h := listVouchers_perm email none none sort s
  have hq : (fun v : Voucher =>
      v.email == email
      && (match (none : Option String) with | some c => v.company == c | none => true)
      && (match (none : Option String) with | some dt => v.date == dt | none => true))
      = (fun v : Voucher => v.email == email) := by
    funext v
    simp
  rw [hq] at h
  exact h

theorem driveLink_ne_empty (k : Nat) : driveLink k ≠ "" := by
  unfold driveLink
  intro hcon
  have hlen := congrArg String.length hcon
  rw [String.length_append] at hlen
  have h32 : ("https://drive.google.com/file/d/" : String).length = 32 := by decide
  rw [h32] at hlen
  simp at hlen

end FormServer

namespace FormServer

/-! ## Concrete scenario states -/

/-- A well-formed request body used in the concrete scenarios. -/
def demoData : VoucherData :=
  { filter := "Contentstack", voucherNo := none, date := "2024-01-01",
    payTo := "p", accountHead := "ah", account := "t", transactionType := "Cash",
    amount := "500", amountRs := "five hundred", checkedBy := "c",
    approvedBy := "ap", receiverSignature := "r" }

/-- The initial state: empty stores. -/
def emptyState : ServerState := { vouchers := [], sheets := [], nextId := 0, nextRecordId := 0 }

/-- State after one submit of demoData by owner a. -/
def demoState1 : ServerState := (submit "a@x.com" demoData emptyState).2.1

/-- State after two submits of demoData by owner a. -/
def demoState2 : ServerState := (submit "a@x.com" demoData demoState1).2.1

/-- State after submit, submit, then delete of voucher 1 by owner a. -/
def c2State : ServerState := (deleteVoucher "a@x.com" 1 demoState2).2.1

theorem getUserResources_voucherNumber_spec_witness :
    (∃ m, (∃ w ∈ demoState1.vouchers,
              matchesPair "a@x.com" "Contentstack" w = true ∧ w.voucherNo = m)
        ∧ (∀ w ∈ demoState1.vouchers,
              matchesPair "a@x.com" "Contentstack" w = true → w.voucherNo ≤ m)
        ∧ (getUserResources "a@x.com" "Contentstack" demoState1).1.voucherNumber = m + 1)
    ∧ (getUserResources "b@x.com" "Contentstack" demoState1).1.voucherNumber = 1 := by
  constructor
  · exact (getUserResources_voucherNumber_spec "a@x.com" "Contentstack" demoState1).2
      (by decide)
  · exact (getUserResources_voucherNumber_spec "b@x.com" "Contentstack" demoState1).1
      (by decide)

/-! ## C2 -/

/-- C2 counterexample: owner a submits twice and deletes voucher 1; one
non-deleted prior submission remains for the pair, so the claim predicts
the next submitted number to be 1 + 1 = 2, yet the code saves 3 (highest
surviving number 2, plus one). -/
theorem submit_number_not_count_cex :
    c2State.vouchers.countP (matchesPair "a@x.com" "Contentstack") = 1
    ∧ (submit "a@x.com" demoData c2State).1 = .ok ⟨sheetURLOf 0, 4⟩
    ∧ ((submit "a@x.com" demoData c2State).2.1.vouchers.map Voucher.voucherNo) = [2, 3]
    ∧ ¬ ((3 : Nat) = 1 + 1) :=
  ⟨by decide, by rfl, by decide, by decide⟩

/-! ## C4 -/

/-- The demo request body with a truthy client-supplied voucherNo. -/
def clientNoData : VoucherData := { demoData with voucherNo := some 1 }

/-- C4: a submit request whose body carries a truthy voucherNo field
persists that client-supplied number instead of the allocated
highest-plus-one: on a store already holding voucher 1 of the pair the
allocator yields 2, yet the saved record carries 1, so two records with
the same (owner, company, number) coexist, violating uniqueness through
the public submit interface. -/
theorem submit_client_number_overrides_allocator :
    (getUserResources "a@x.com" "Contentstack" demoState1).1.voucherNumber = 2
    ∧ (submit "a@x.com" clientNoData demoState1).1 = .ok ⟨sheetURLOf 0, 3⟩
    ∧ ((submit "a@x.com" clientNoData demoState1).2.1.vouchers.map
        (fun v => (v.email, v.company, v.voucherNo)))
      = [("a@x.com", "Contentstack", 1), ("a@x.com", "Contentstack", 1)] :=
  ⟨by decide, by rfl, by decide⟩

/-! ## C8 theorems -/

/-- C8 counterexample: owner a successfully submits the same field set
twice; the subsequent list query for that owner returns two vouchers
matching the submitted fields, not exactly one. -/
theorem submit_list_roundtrip_cex :
    (submit "a@x.com" demoData emptyState).1 = .ok ⟨sheetURLOf 0, 2⟩
    ∧ (submit "a@x.com" demoData demoState1).1 = .ok ⟨sheetURLOf 0, 3⟩
    ∧ (listVouchers "a@x.com" none none none demoState2).countP
        (matchesSubmitted "a@x.com" demoData) = 2
    ∧ ¬ ((2 : Nat) = 1) := by
  refine ⟨by rfl, by rfl, ?_, by decide⟩
  rw [(listVouchers_none_perm "a@x.com" none demoState2).countP_eq
    (matchesSubmitted "a@x.com" demoData)]
  decide

/-- C8 amended: for every successful submit of a field set by an owner,
provided no stored voucher of that owner already matches the submitted
field set (in particular on the first submission of that field set), a
subsequent list query for that owner returns exactly one voucher whose
fields match the submitted ones, and that voucher's document link is
non-empty.  (As frozen, without that proviso, the claim fails when the
identical field set is submitted twice: see the counterexample.) -/
theorem submit_list_roundtrip_unique (email : String) (d : VoucherData)
    (s : ServerState)
    (hf : validFilters.contains d.filter = true) (he : email ≠ "")
    (ht : transactionTypes.contains d.transactionType = true)
    (h0 : s.vouchers.countP (matchesSubmitted email d) = 0) :
    ∃ v, (listVouchers email none none none (submit email d s).2.1).filter
          (matchesSubmitted email d) = [v]
      ∧ v.pdfLink ≠ "" := by
  obtain ⟨sid, fid, fileId, rid, pre, _, h2, _, _, _⟩ := submit_success email d s hf he ht
  set w := mkSubmittedVoucher rid email d
      (chosenVoucherNo d.voucherNo (nextVoucherNumber email d.filter s.vouchers))
      (driveLink fileId) sid fid fileId with hwdef
  refine ⟨w, ?_, ?_⟩
  · have hperm := (listVouchers_none_perm email none
      (submit email d s).2.1).filter (matchesSubmitted email d)
    rw [h2] at hperm
    have hnone := List.countP_eq_zero.mp h0
    have hstep : ((s.vouchers ++ [w]).filter (fun v => v.email == email)).filter
        (matchesSubmitted email d) = [w] := by
      rw [List.filter_append]
      have hqw : ([w].filter (fun v => v.email == email)) = [w] := by
        simp [hwdef, mkSubmittedVoucher]
      rw [hqw, List.filter_append]
      have hpw : ([w].filter (matchesSubmitted email d)) = [w] := by
        simp [hwdef, matchesSubmitted, mkSubmittedVoucher]
      rw [hpw]
      have hzero : ((s.vouchers.filter (fun v => v.email == email)).filter
          (matchesSubmitted email d)) = [] := by
        apply List.filter_eq_nil_iff.mpr
        intro a ha
        exact hnone a (List.mem_filter.mp ha).1
      rw [hzero]
      rfl
    rw [hstep] at hperm
    exact hperm.eq_singleton
  · show w.pdfLink ≠ ""
    rw [hwdef]
    exact driveLink_ne_empty fileId

/-! ## Witness fixtures -/

/-- The voucher record demoState1 holds (the result of the first
submit). -/
def firstVoucher : Voucher :=
  { id := 0, email := "a@x.com", company := "Contentstack", voucherNo := 1,
    date := "2024-01-01", payTo := "p", accountHead := "ah", account := "t",
    transactionType := "Cash", amount := "500", amountRs := "five hundred",
    checkedBy := "c", approvedBy := "ap", receiverSignature := "r",
    pdfLink := driveLink 2, spreadsheetId := 0, folderId := 1,
    pdfFileId := some 2 }

/-- The demo request body for a second company of the same owner. -/
def surfData : VoucherData := { demoData with filter := "Surfboard" }

/-- A second request body for the same pair with different content
fields. -/
def demoData2 : VoucherData :=
  { demoData with date := "2024-03-03", payTo := "q", amount := "750" }

/-- An edit request body whose filter differs from the stored company of
the record being edited. -/
def editData : VoucherData :=
  { demoData with filter := "Surfboard", date := "2025-02-02" }

/-- A sequence of submit requests with varying bodies, a different
owner, and a different company interleaved; exactly its first two
requests are successful submissions for (a, Contentstack). -/
def demoSeq : List (String × VoucherData) :=
  [("a@x.com", demoData), ("a@x.com", demoData2),
   ("b@y.com", demoData), ("a@x.com", surfData)]

/-- The 13-cell data row of firstVoucher as appended to its sheet. -/
def syncRow : List String :=
  ["1", "2024-01-01", "Contentstack", "p", "ah", "t", "Cash",
   "500", "five hundred", "c", "ap", "r", driveLink 2]

/-- A state whose record store holds firstVoucher but whose spreadsheet
(with its single sheet named after the company) has no data row for it
(desynchronized stores). -/
def desyncState : ServerState :=
  { vouchers := [firstVoucher], sheets := [(0, "Contentstack", [])],
    nextId := 3, nextRecordId := 1 }

/-- A state whose record store and spreadsheet agree on voucher 1 of
owner a; the single sheet is named after the stored company. -/
def syncState : ServerState :=
  { vouchers := [firstVoucher], sheets := [(0, "Contentstack", [syncRow])],
    nextId := 3, nextRecordId := 1 }

/-- A second voucher with the same (owner, number) under a different
company and its own workspace. -/
def secondCompanyVoucher : Voucher :=
  { firstVoucher with
      id := 1, company := "Surfboard", spreadsheetId := 5,
      folderId := 6, pdfFileId := some 7 }

/-- A state in which owner a holds voucher number 1 under two different
companies. -/
def twoCompanyState : ServerState :=
  { vouchers := [firstVoucher, secondCompanyVoucher],
    sheets := [(0, "Contentstack", [syncRow]),
      (5, "Surfboard", [["1", "2024-01-01", "Surfboard", "p", "ah", "t", "Cash",
        "500", "five hundred", "c", "ap", "r", driveLink 7]])],
    nextId := 8, nextRecordId := 2 }

/-- C9 counterexample: an edit whose request filter (Surfboard) differs
from the stored company (Contentstack) of the record it addresses is
rejected at the spreadsheet range read — the workspace only has a sheet
named after the stored company — and performs no record-store update, so
the successful cross-company edit the claim describes never occurs. -/
theorem edit_cross_company_cex :
    editData.filter ≠ firstVoucher.company
    ∧ (editVoucher "a@x.com" 0 editData syncState).1 = .error .rangeError
    ∧ (editVoucher "a@x.com" 0 editData syncState).2.1.vouchers = syncState.vouchers :=
  ⟨by decide, by rfl, by rfl⟩

/-! ## Witnesses -/

theorem submit_sequence_numbers_witness :
    pairSubmits "a@x.com" demoData.filter demoSeq = 2
    ∧ ∃ v, (submit "a@x.com" demoData (runSubmits demoSeq emptyState)).2.1.vouchers
        = (runSubmits demoSeq emptyState).vouchers ++ [v]
      ∧ v.email = "a@x.com" ∧ v.company = demoData.filter
      ∧ v.voucherNo = pairSubmits "a@x.com" demoData.filter demoSeq + 1 :=
  ⟨by decide,
   submit_sequence_numbers "a@x.com" demoData demoSeq emptyState (by decide) (by decide)
     (by decide) (by decide) (by decide) (by decide)⟩

theorem submit_row_matches_header_schema_witness :
    ∃ sid fileId row,
      Effect.appendRow sid demoData.filter row ∈ (submit "a@x.com" demoData emptyState).2.2
      ∧ row.length = headerValues.length
      ∧ row = specSchemaRow
          (chosenVoucherNo demoData.voucherNo
            (nextVoucherNumber "a@x.com" demoData.filter emptyState.vouchers))
          demoData.date demoData.filter demoData.payTo demoData.accountHead
          demoData.account demoData.transactionType demoData.amount demoData.amountRs
          demoData.checkedBy demoData.approvedBy demoData.receiverSignature
          (driveLink fileId) :=
  submit_row_matches_header_schema "a@x.com" demoData emptyState (by decide) (by decide)
    (by decide)

theorem edit_unknown_id_no_mutation_witness :
    editVoucher "a@x.com" 0 demoData emptyState
      = (.error .voucherNotFound, emptyState, []) :=
  edit_unknown_id_no_mutation "a@x.com" 0 demoData emptyState (by decide) (by decide)

theorem row_not_found_delete_forgiving_edit_fatal_witness :
    ((deleteVoucher "a@x.com" 1 desyncState).1 = .ok ()
     ∧ (deleteVoucher "a@x.com" 1 desyncState).2.1.vouchers
         = deleteFirst (matchesNoOwner 1 "a@x.com") desyncState.vouchers
     ∧ (deleteVoucher "a@x.com" 1 desyncState).2.1.sheets = desyncState.sheets
     ∧ ∀ e ∈ (deleteVoucher "a@x.com" 1 desyncState).2.2, ∀ sid title i,
         e ≠ Effect.clearRow sid title i)
    ∧ ((editVoucher "a@x.com" 0 demoData desyncState).1 = .error .rowNotFound
     ∧ (editVoucher "a@x.com" 0 demoData desyncState).2.1.vouchers
         = desyncState.vouchers) :=
  ⟨row_not_found_delete_forgiving_edit_fatal.1 "a@x.com" 1 desyncState firstVoucher
      (by decide) (by decide),
   row_not_found_delete_forgiving_edit_fatal.2 "a@x.com" 0 demoData desyncState
      firstVoucher [] (by decide) (by decide) (by decide) (by decide)⟩

theorem submit_provisioning_idempotent_witness :
    (∃ w, (submit "a@x.com" demoData demoState1).2.1.vouchers
        = demoState1.vouchers ++ [w]
      ∧ w.spreadsheetId = firstVoucher.spreadsheetId
      ∧ w.folderId = firstVoucher.folderId)
    ∧ (∃ w, (submit "a@x.com" surfData demoState1).2.1.vouchers
        = demoState1.vouchers ++ [w]
      ∧ (∀ v ∈ demoState1.vouchers,
          w.spreadsheetId ≠ v.spreadsheetId ∧ w.folderId ≠ v.folderId)
      ∧ w.spreadsheetId ≠ w.folderId) :=
  ⟨((submit_provisioning_idempotent "a@x.com" demoData demoState1 (by decide) (by decide)
      (by decide)).1 firstVoucher (by decide)).2,
   (submit_provisioning_idempotent "a@x.com" surfData demoState1 (by decide) (by decide)
      (by decide)).2 (by decide) (by decide)⟩

theorem submit_list_roundtrip_unique_witness :
    ∃ v, (listVouchers "a@x.com" none none none
          (submit "a@x.com" demoData emptyState).2.1).filter
          (matchesSubmitted "a@x.com" demoData) = [v]
      ∧ v.pdfLink ≠ "" :=
  submit_list_roundtrip_unique "a@x.com" demoData emptyState (by decide) (by decide)
    (by decide) (by decide)

theorem edit_frame_preserves_identity_witness :
    ((editVoucher "a@x.com" 0 demoData syncState).1
        = .ok ⟨sheetURLOf firstVoucher.spreadsheetId, syncState.nextId⟩
     ∧ (editVoucher "a@x.com" 0 demoData syncState).2.1.vouchers =
         updateFirst (matchesIdOwner 0 "a@x.com")
           (applyEditUpdate demoData (driveLink syncState.nextId) syncState.nextId)
           syncState.vouchers
     ∧ Effect.updateRow firstVoucher.spreadsheetId demoData.filter 0
         (sheetRowValues firstVoucher.voucherNo demoData (driveLink syncState.nextId))
         ∈ (editVoucher "a@x.com" 0 demoData syncState).2.2)
    ∧ ((editVoucher "a@x.com" 0 editData twoCompanyState).1 = .error .rangeError
     ∧ (editVoucher "a@x.com" 0 editData twoCompanyState).2.1.vouchers
         = twoCompanyState.vouchers) := by
  have ha := edit_frame_preserves_identity.1 "a@x.com" 0 demoData syncState firstVoucher
    [syncRow] 0 (by decide) (by decide) (by decide) (by decide)
  have hb := edit_frame_preserves_identity.2 "a@x.com" 0 editData twoCompanyState
    firstVoucher [syncRow] (by decide) (by decide) (by decide) (by decide)
  exact ⟨⟨ha.1, ha.2.1, ha.2.2.2.1⟩, hb⟩

theorem delete_matches_number_owner_only_witness :
    2 ≤ twoCompanyState.vouchers.countP (matchesNoOwner 1 "a@x.com")
    ∧ (deleteVoucher "a@x.com" 1 twoCompanyState).1 = .ok ()
    ∧ (deleteVoucher "a@x.com" 1 twoCompanyState).2.1.vouchers.countP
        (matchesNoOwner 1 "a@x.com") + 1
        = twoCompanyState.vouchers.countP (matchesNoOwner 1 "a@x.com") := by
  have h := delete_matches_number_owner_only "a@x.com" 1 twoCompanyState
    firstVoucher secondCompanyVoucher (by decide) (by decide) (by decide) (by decide)
    (by decide)
  exact ⟨h.1, h.2.1, h.2.2.1⟩

end FormServer
